import Mathlib

/-!
Verification of the 3D-printing error-detection service
(`app.py`, Flask server) and its Raspberry-Pi capture client
(`raspberry_client.py`).

The server endpoints and the Telegram dispatcher are embedded as pure
functions over a `ServerEnv` record that carries the external
capabilities the Python code calls out to: `cv2.imdecode`,
`base64.b64decode`, the YOLOv5 model (`model(image)` and
`results.render()`), `cv2.imencode`, and the outbound HTTP POST to the
Telegram API.  An exception raised by one of these calls is modelled by
the capability returning `none`; the `try/except` blocks of the source
become `match`es on those options.  Images and byte strings are opaque
data (`Nat` ids and `List Nat`): the endpoints never inspect their
content, they only pass them between capabilities.
-/

/-- Raw byte strings (file uploads, decoded base64 payloads). -/
abbrev Bytes := List Nat

/-- In-memory pixel arrays as produced by `cv2.imdecode`.  The server
treats images opaquely, so an abstract id suffices. -/
abbrev Image := Nat

/-- One row of `results.pandas().xyxy[0]`: a detected object with its
class name, confidence and bounding box, all floats in the source;
modelled with exact rationals. -/
structure Detection where
  name : String
  confidence : ℚ
  xmin : ℚ
  ymin : ℚ
  xmax : ℚ
  ymax : ℚ
deriving Repr, DecidableEq

/-- Integer box coordinates of the JSON response, produced by Python
`int(...)` (truncation toward zero). -/
structure Coordinates where
  xmin : ℤ
  ymin : ℤ
  xmax : ℤ
  ymax : ℤ
deriving Repr, DecidableEq

/-- One element of the `"detections"` list in the JSON response. -/
structure DetectionJson where
  name : String
  confidence : ℚ
  coordinates : Coordinates
deriving Repr, DecidableEq

/-- Body of an HTTP response from the server: either an error object
`{"error": msg}`, the health-check object, or the detection summary. -/
inductive ResponseBody where
  | error (msg : String)
  | health (status : String) (message : String) (model_loaded : Bool)
  | detection (detections_found : Nat) (detections : List DetectionJson)
      (alert_sent : Bool) (status : String)
deriving Repr, DecidableEq

/-- An HTTP response: status code plus JSON body. -/
structure HttpResponse where
  code : Nat
  body : ResponseBody
deriving Repr, DecidableEq

/-- The `"status"` tag of a detection summary body, if it is one. -/
def ResponseBody.statusTag : ResponseBody → Option String
  | .detection _ _ _ s => some s
  | _ => none

/-- The `"detections_found"` count of a detection summary body. -/
def ResponseBody.detectionsFound : ResponseBody → Option Nat
  | .detection n _ _ _ => some n
  | _ => none

/-- The `"alert_sent"` flag of a detection summary body. -/
def ResponseBody.alertSent : ResponseBody → Option Bool
  | .detection _ _ b _ => some b
  | _ => none

/-- External capabilities used by the server.  `none` from `b64decode`
or `telegram_post` models the library call raising an exception;
`decode` returning `none` models `cv2.imdecode` returning `None`. -/
structure ServerEnv where
  decode : Bytes → Option Image
  b64decode : String → Option Bytes
  detect : Image → List Detection
  render : Image → Image
  imencode_ok : Image → Bool
  telegram_post : Image → String → Option Nat
deriving Inhabited

/-- Python `int(q)` on a float: truncation toward zero
(`Int.div` is T-division). -/
def int_trunc (q : ℚ) : ℤ :=
  q.num.tdiv (q.den : ℤ)

/-- Half-to-even rounding, the rounding used by Python `format(x, '.2f')`
and `'.0f'` at the tie points. -/
def roundHalfEven (q : ℚ) : ℤ :=
  let f := q.floor
  let frac := q - (f : ℚ)
  if frac < 1/2 then f
  else if 1/2 < frac then f + 1
  else if f % 2 = 0 then f else f + 1

/-- Python `f"{q:.2f}"`: fixed-point with two decimal places. -/
def formatFixed2 (q : ℚ) : String :=
  let n := roundHalfEven (q * 100)
  let sign := if n < 0 then "-" else ""
  let m := n.natAbs
  let r := m % 100
  sign ++ toString (m / 100) ++ "." ++ (if r < 10 then "0" else "") ++ toString r

/-- Python `f"{q:.0f}"`: fixed-point with no decimal places. -/
def formatFixed0 (q : ℚ) : String :=
  toString (roundHalfEven q)

/-- The caption line one filtered detection row contributes
(`app.py` lines 48-50). -/
def detection_line (d : Detection) : String :=
  "🔹 *" ++ d.name ++ "*\n" ++
  "Confianza: " ++ formatFixed2 d.confidence ++ "\n" ++
  "Posición: x1=" ++ formatFixed0 d.xmin ++ ", y1=" ++ formatFixed0 d.ymin ++
  ", x2=" ++ formatFixed0 d.xmax ++ ", y2=" ++ formatFixed0 d.ymax ++ "\n\n"

/-- The caption header (`app.py` line 46). -/
def alert_header : String :=
  "⚠ *Detección de error en impresión 3D* ⚠\n\n"

/-- The full alert caption: the header followed by one block per
filtered row, accumulated left to right as the source's `for` loop
does (`app.py` lines 46-50). -/
def alert_message (filtered_detections : List Detection) : String :=
  filtered_detections.foldl (fun m d => m ++ detection_line d) alert_header

/-- Python `str.lower()` as used on the ASCII class names of the model:
character-wise lowercasing. -/
def str_lower (s : String) : String :=
  ⟨s.data.map Char.toLower⟩

/-- The sentinel filter used at `app.py` lines 27, 157 and 223:
keep the rows whose lowercased name differs from `'imprimiendo'`. -/
def sentinel_filter (detections : List Detection) : List Detection :=
  detections.filter (fun d => str_lower d.name != "imprimiendo")

/-- `send_telegram_alert` (`app.py` lines 23-66).  Returns the boolean
the Python function returns; every failure path (empty filtered batch,
`cv2.imencode` failure, network exception, non-200 reply) yields
`false`. -/
def send_telegram_alert (env : ServerEnv) (image_array : Image)
    (detections : List Detection) : Bool :=
  let filtered_detections := sentinel_filter detections
  if filtered_detections.isEmpty then false
  else if env.imencode_ok image_array = false then false
  else
    let message := alert_message filtered_detections
    match env.telegram_post image_array message with
    | none => false
    | some code => if code != 200 then false else true

/-- `health_check` (`app.py` lines 96-104): Flask `jsonify` with no
explicit code returns HTTP 200. -/
def health_check (modelLoaded : Bool) : HttpResponse :=
  ⟨200, .health (if modelLoaded then "OK" else "ERROR")
    "Servidor de detección de errores en impresión 3D" modelLoaded⟩

/-- A request to `POST /detect`: either the multipart form has no
`image` field, or it carries a file with a name and byte content. -/
inductive MultipartRequest where
  | noImageField
  | file (filename : String) (content : Bytes)
deriving Repr, DecidableEq

/-- One detection row converted to its JSON record
(`app.py` lines 144-153): confidence through `float(...)`,
coordinates through `int(...)`. -/
def detection_to_json (d : Detection) : DetectionJson :=
  ⟨d.name, d.confidence,
    ⟨int_trunc d.xmin, int_trunc d.ymin, int_trunc d.xmax, int_trunc d.ymax⟩⟩

/-- `detect_errors` (`app.py` lines 106-174), the `POST /detect`
handler. -/
def detect_errors (env : ServerEnv) (modelLoaded : Bool)
    (req : MultipartRequest) : HttpResponse :=
  if modelLoaded = false then ⟨500, .error "Modelo no disponible"⟩
  else
    match req with
    | .noImageField => ⟨400, .error "No se envió ninguna imagen"⟩
    | .file filename content =>
      if filename = "" then ⟨400, .error "Archivo vacío"⟩
      else
        match env.decode content with
        | none => ⟨400, .error "No se pudo decodificar la imagen"⟩
        | some image =>
          let detections := env.detect image
          if detections.length > 0 then
            let dets_json := detections.map detection_to_json
            let error_detections := sentinel_filter detections
            if error_detections.isEmpty then
              ⟨200, .detection detections.length dets_json false "printing_normal"⟩
            else
              let rendered_image := env.render image
              let alert_sent := send_telegram_alert env rendered_image detections
              ⟨200, .detection detections.length dets_json alert_sent "error_detected"⟩
          else
            ⟨200, .detection detections.length [] false "normal"⟩

/-- A request to `POST /detect_base64`: either the JSON body is absent
or lacks the `image` key, or it carries the `image` string. -/
inductive B64Request where
  | noJson
  | withImage (s : String)
deriving Repr, DecidableEq

/-- Python `str.split(sep)` for a one-character separator, over the
character list of the string. -/
def split_chars (sep : Char) : List Char → List (List Char)
  | [] => [[]]
  | c :: rest =>
    let r := split_chars sep rest
    if c = sep then [] :: r
    else
      match r with
      | [] => [[c]]
      | h :: t => (c :: h) :: t

/-- The payload extraction at `app.py` line 189:
`data['image'].split(',')[1] if ',' in data['image'] else data['image']`
(strips a `data:image/jpeg;base64,` prefix). -/
def extract_b64_payload (s : String) : String :=
  if s.data.contains ',' then ⟨(split_chars ',' s.data).getD 1 []⟩ else s

/-- `detect_errors_base64` (`app.py` lines 176-237), the
`POST /detect_base64` handler. -/
def detect_errors_base64 (env : ServerEnv) (modelLoaded : Bool)
    (req : B64Request) : HttpResponse :=
  if modelLoaded = false then ⟨500, .error "Modelo no disponible"⟩
  else
    match req with
    | .noJson => ⟨400, .error "No se envió imagen en base64"⟩
    | .withImage s =>
      match env.b64decode (extract_b64_payload s) with
      | none => ⟨400, .error "Error al decodificar imagen base64"⟩
      | some image_data =>
        match env.decode image_data with
        | none => ⟨400, .error "No se pudo decodificar la imagen"⟩
        | some image =>
          let detections := env.detect image
          if detections.length > 0 then
            let dets_json := detections.map detection_to_json
            let error_detections := sentinel_filter detections
            if error_detections.isEmpty then
              ⟨200, .detection detections.length dets_json false "printing_normal"⟩
            else
              let rendered_image := env.render image
              let alert_sent := send_telegram_alert env rendered_image detections
              ⟨200, .detection detections.length dets_json alert_sent "error_detected"⟩
          else
            ⟨200, .detection detections.length [] false "normal"⟩

/-!
Client model (`raspberry_client.py`).  One iteration of the `while True`
loop in `main` (lines 193-223) is modelled as a pure function of a
`ClientEnv` describing what the camera and the two transports would do
this cycle.  The function returns the trace of externally visible steps
the iteration performs, in order, together with the `result` value the
iteration ends with; the final `sleep` step of the trace is the wait
before the next capture, so a trace ending in `sleep` is an iteration
that continues the loop.
-/

/-- Outcome of one upload call: a 200 reply with a parsed JSON body, a
non-200 reply, or a `requests` exception (timeout, connection error). -/
inductive UploadOutcome where
  | success (result : ResponseBody)
  | httpError (code : Nat)
  | netError
deriving Repr, DecidableEq

/-- What the external world does during one client cycle: what the
camera returns (`none` = capture failure) and how each transport's
upload call turns out. -/
structure ClientEnv where
  capture : Option Image
  primary : Image → UploadOutcome
  fallback : Image → UploadOutcome

/-- `CameraClient.send_image_to_server` (`raspberry_client.py` lines
79-119): returns the parsed result on HTTP 200, `None` on a non-200
reply or on any exception. -/
def send_image_to_server (env : ClientEnv) (image : Image) : Option ResponseBody :=
  match env.primary image with
  | .success result => some result
  | .httpError _ => none
  | .netError => none

/-- `CameraClient.send_image_base64` (`raspberry_client.py` lines
121-149): same contract over the base64 transport. -/
def send_image_base64 (env : ClientEnv) (image : Image) : Option ResponseBody :=
  match env.fallback image with
  | .success result => some result
  | .httpError _ => none
  | .netError => none

/-- Externally visible steps of one loop iteration. -/
inductive CycleStep where
  | captureFrame
  | saveDebugCopy
  | primaryUpload
  | fallbackUpload
  | sleep (seconds : Nat)
deriving Repr, DecidableEq

/-- `CAPTURE_INTERVAL` (`raspberry_client.py` line 10). -/
def CAPTURE_INTERVAL : Nat := 30

/-- One iteration of the capture loop (`raspberry_client.py` lines
193-223): capture; on failure sleep 5 s and continue; otherwise save the
debug copy, try the primary transport, on a `None` result try the base64
transport once, and sleep the capture interval. -/
def client_cycle (env : ClientEnv) : List CycleStep × Option ResponseBody :=
  match env.capture with
  | none => ([.captureFrame, .sleep 5], none)
  | some image =>
    match send_image_to_server env image with
    | none =>
      let result := send_image_base64 env image
      ([.captureFrame, .saveDebugCopy, .primaryUpload, .fallbackUpload,
        .sleep CAPTURE_INTERVAL], result)
    | some result =>
      ([.captureFrame, .saveDebugCopy, .primaryUpload,
        .sleep CAPTURE_INTERVAL], some result)

/-- Specification-side description of the caption body: the
concatenation, in order, of one `detection_line` block per filtered
detection.  Compared against the accumulating `alert_message` of the
source. -/
def caption_blocks : List Detection → String
  | [] => ""
  | d :: t => detection_line d ++ caption_blocks t

/-- Example detection: the sentinel class at confidence 0.91. -/
def egImprimiendo : Detection :=
  ⟨"imprimiendo", mkRat 91 100, 1, 2, 3, 4⟩

/-- Example detection: a stringing error at confidence 0.77 with box
(10, 20, 110, 220). -/
def egStringing : Detection :=
  ⟨"stringing", mkRat 77 100, 10, 20, 110, 220⟩

/-- Example detection: the sentinel class with a capitalised label. -/
def egMixedCase1 : Detection :=
  ⟨"Imprimiendo", mkRat 9 10, 0, 0, 5, 5⟩

/-- Example detection: the sentinel class with an upper-case label. -/
def egMixedCase2 : Detection :=
  ⟨"IMPRIMIENDO", mkRat 1 2, 0, 0, 6, 6⟩

/-- Example detector: image 1 carries a mixed batch, image 2 an empty
batch, image 3 a sentinel-only batch, image 4 a batch of mixed-case
sentinel labels. -/
def egDetect (i : Image) : List Detection :=
  if i = 1 then [egImprimiendo, egStringing]
  else if i = 2 then []
  else if i = 3 then [egImprimiendo]
  else if i = 4 then [egMixedCase1, egMixedCase2]
  else []

/-- Example decoder: four decodable byte strings, everything else
undecodable. -/
def egDecode (b : Bytes) : Option Image :=
  if b = [7] then some 1
  else if b = [9] then some 2
  else if b = [5] then some 3
  else if b = [11] then some 4
  else none

/-- Example base64 decoder: four decodable payload strings, everything
else raises. -/
def egB64 (t : String) : Option Bytes :=
  if t = "a" then some [7]
  else if t = "b" then some [9]
  else if t = "c" then some [5]
  else if t = "d" then some [11]
  else none

/-- Example server environment whose Telegram provider replies 200. -/
def egEnv : ServerEnv :=
  ⟨egDecode, egB64, egDetect, fun i => i + 100, fun _ => true, fun _ _ => some 200⟩

/-- Example server environment whose Telegram provider raises a network
error on every call. -/
def egEnvFail : ServerEnv :=
  ⟨egDecode, egB64, egDetect, fun i => i + 100, fun _ => true, fun _ _ => none⟩

/-!
Theorems.
-/

/-- Claim C9: in every client capture cycle where the primary multipart
upload fails (timeout, network error, or non-200 response), exactly one
fallback attempt via the base64 transport is made before the cycle ends,
and the loop continues to the next interval even if both attempts fail:
the iteration performs exactly one `primaryUpload` and exactly one
`fallbackUpload`, and ends with the interval sleep that leads into the
next capture. -/
theorem primary_failure_one_fallback (env : ClientEnv) (image : Image)
    (hcap : env.capture = some image)
    (hfail : ∀ r, env.primary image ≠ .success r) :
    send_image_to_server env image = none ∧
    (client_cycle env).1.count .fallbackUpload = 1 ∧
    (client_cycle env).1.count .primaryUpload = 1 ∧
    (client_cycle env).1.getLast? = some (.sleep CAPTURE_INTERVAL) := by
  have hsend : send_image_to_server env image = none := by
    unfold send_image_to_server
    cases hp : env.primary image with
    | success r => exact absurd hp (hfail r)
    | httpError c => rfl
    | netError => rfl
  refine ⟨hsend, ?_⟩
  unfold client_cycle
  simp only [hcap, hsend]
  refine ⟨?_, ?_, ?_⟩ <;> rfl

/-- Witness for C9: a concrete cycle whose primary upload gets a
network error performs exactly one fallback attempt and ends in the
interval sleep. -/
theorem primary_failure_one_fallback_witness :
    send_image_to_server ⟨some 1, fun _ => .netError, fun _ => .httpError 500⟩ 1 = none ∧
    (client_cycle ⟨some 1, fun _ => .netError, fun _ => .httpError 500⟩).1.count .fallbackUpload = 1 ∧
    (client_cycle ⟨some 1, fun _ => .netError, fun _ => .httpError 500⟩).1.count .primaryUpload = 1 ∧
    (client_cycle ⟨some 1, fun _ => .netError, fun _ => .httpError 500⟩).1.getLast? = some (.sleep CAPTURE_INTERVAL) :=
  primary_failure_one_fallback ⟨some 1, fun _ => .netError, fun _ => .httpError 500⟩ 1
    rfl (fun r h => by cases h)

/-- Claim C3, counterexample: with the detector unavailable
(`model is None`), the health-check endpoint does not return HTTP 500 —
it returns HTTP 200 (Flask `jsonify` with no explicit status code),
with `status = "ERROR"` and `model_loaded = false`.  This refutes the
claim that every endpoint, the health check included, yields 500. -/
theorem health_check_200_counterexample :
    health_check false =
      ⟨200, .health "ERROR" "Servidor de detección de errores en impresión 3D" false⟩ ∧
    (health_check false).code ≠ 500 := by
  exact ⟨rfl, by decide⟩

/-- Claim C3, amended: when the detector failed to initialize, every
request to `POST /detect` and `POST /detect_base64` yields HTTP 500
("Modelo no disponible"), while `GET /` returns HTTP 200 with
`status = "ERROR"` and `model_loaded = false`. -/
theorem model_unavailable_behaviour (env : ServerEnv)
    (req : MultipartRequest) (req2 : B64Request) :
    detect_errors env false req = ⟨500, .error "Modelo no disponible"⟩ ∧
    detect_errors_base64 env false req2 = ⟨500, .error "Modelo no disponible"⟩ ∧
    health_check false =
      ⟨200, .health "ERROR" "Servidor de detección de errores en impresión 3D" false⟩ := by
  refine ⟨rfl, rfl, rfl⟩

/-- Claim C10: for every request whose image decodes and whose detection
batch is empty, both `POST /detect` and `POST /detect_base64` return
`detections_found == 0`, an empty detections list, `status == "normal"`,
and `alert_sent == false`. -/
theorem empty_batch_normal (env : ServerEnv) (filename : String)
    (content : Bytes) (s : String) (image : Image)
    (hfn : filename ≠ "")
    (hdec : env.decode content = some image)
    (hb64 : env.b64decode (extract_b64_payload s) = some content)
    (hempty : env.detect image = []) :
    detect_errors env true (.file filename content) =
      ⟨200, .detection 0 [] false "normal"⟩ ∧
    detect_errors_base64 env true (.withImage s) =
      ⟨200, .detection 0 [] false "normal"⟩ := by
  constructor
  · unfold detect_errors
    simp [hfn, hdec, hempty]
  · unfold detect_errors_base64
    simp [hb64, hdec, hempty]

/-- Claim C2: for every non-empty detection batch in which every
detection's label is exactly the sentinel `"imprimiendo"`, both
endpoints return `status == "printing_normal"` with
`alert_sent == false`.  The returned response is a fixed value that
does not depend on `env.imencode_ok` or `env.telegram_post`, so no
alert dispatch is observable; moreover the dispatcher itself, applied
to this batch, refuses before posting (last conjunct). -/
theorem only_sentinel_printing_normal (env : ServerEnv) (filename : String)
    (content : Bytes) (s : String) (image : Image)
    (hfn : filename ≠ "")
    (hdec : env.decode content = some image)
    (hb64 : env.b64decode (extract_b64_payload s) = some content)
    (hne : env.detect image ≠ [])
    (hall : ∀ d ∈ env.detect image, d.name = "imprimiendo") :
    detect_errors env true (.file filename content) =
      ⟨200, .detection (env.detect image).length
        ((env.detect image).map detection_to_json) false "printing_normal"⟩ ∧
    detect_errors_base64 env true (.withImage s) =
      ⟨200, .detection (env.detect image).length
        ((env.detect image).map detection_to_json) false "printing_normal"⟩ ∧
    send_telegram_alert env (env.render image) (env.detect image) = false := by
  have hfilter : sentinel_filter (env.detect image) = [] := by
    unfold sentinel_filter
    rw [List.filter_eq_nil_iff]
    intro d hd
    rw [hall d hd]
    decide
  have hlen : 0 < (env.detect image).length := List.length_pos.mpr hne
  refine ⟨?_, ?_, ?_⟩
  · unfold detect_errors
    simp [hfn, hdec, hlen, hfilter]
  · unfold detect_errors_base64
    simp [hb64, hdec, hlen, hfilter]
  · unfold send_telegram_alert
    simp [hfilter]

/-- Claim C1: for every detection batch containing at least one
detection whose label is not the sentinel, both endpoints return
`status == "error_detected"`, and the alert dispatcher is invoked on
the rendered image and the full batch, with its boolean result placed
in the `alert_sent` field of the response. -/
theorem error_detected_alert_attempted (env : ServerEnv) (filename : String)
    (content : Bytes) (s : String) (image : Image)
    (hfn : filename ≠ "")
    (hdec : env.decode content = some image)
    (hb64 : env.b64decode (extract_b64_payload s) = some content)
    (herr : ∃ d ∈ env.detect image, str_lower d.name ≠ "imprimiendo") :
    detect_errors env true (.file filename content) =
      ⟨200, .detection (env.detect image).length
        ((env.detect image).map detection_to_json)
        (send_telegram_alert env (env.render image) (env.detect image))
        "error_detected"⟩ ∧
    detect_errors_base64 env true (.withImage s) =
      ⟨200, .detection (env.detect image).length
        ((env.detect image).map detection_to_json)
        (send_telegram_alert env (env.render image) (env.detect image))
        "error_detected"⟩ := by
  obtain ⟨d, hd, hne⟩ := herr
  have hm : d ∈ sentinel_filter (env.detect image) :=
    List.mem_filter.mpr ⟨hd, by simpa using hne⟩
  have hnil : sentinel_filter (env.detect image) ≠ [] := List.ne_nil_of_mem hm
  have hfe : (sentinel_filter (env.detect image)).isEmpty = false := by
    cases hcase : sentinel_filter (env.detect image) with
    | nil => exact absurd hcase hnil
    | cons a t => rfl
  have hlen : 0 < (env.detect image).length :=
    List.length_pos.mpr (List.ne_nil_of_mem hd)
  constructor
  · unfold detect_errors
    simp [hfn, hdec, hlen, hfe]
  · unfold detect_errors_base64
    simp [hb64, hdec, hlen, hfe]

/-- Claim C7: the sentinel test is case-insensitive.  A detection is
kept by the filter at `app.py` lines 27, 157 and 223 exactly when its
lowercased label differs from `"imprimiendo"` (first conjunct), so a
non-empty batch whose labels all lowercase to the sentinel — for
example `"Imprimiendo"` or `"IMPRIMIENDO"` — is excluded from alerting
and yields `status == "printing_normal"` with `alert_sent == false` on
both endpoints, and the dispatcher refuses it as well. -/
theorem sentinel_case_insensitive (env : ServerEnv) (filename : String)
    (content : Bytes) (s : String) (image : Image)
    (hfn : filename ≠ "")
    (hdec : env.decode content = some image)
    (hb64 : env.b64decode (extract_b64_payload s) = some content)
    (hne : env.detect image ≠ [])
    (hall : ∀ d ∈ env.detect image, str_lower d.name = "imprimiendo") :
    (∀ (ds : List Detection) (d : Detection),
      d ∈ sentinel_filter ds ↔ d ∈ ds ∧ str_lower d.name ≠ "imprimiendo") ∧
    detect_errors env true (.file filename content) =
      ⟨200, .detection (env.detect image).length
        ((env.detect image).map detection_to_json) false "printing_normal"⟩ ∧
    detect_errors_base64 env true (.withImage s) =
      ⟨200, .detection (env.detect image).length
        ((env.detect image).map detection_to_json) false "printing_normal"⟩ ∧
    send_telegram_alert env (env.render image) (env.detect image) = false := by
  have hchar : ∀ (ds : List Detection) (d : Detection),
      d ∈ sentinel_filter ds ↔ d ∈ ds ∧ str_lower d.name ≠ "imprimiendo" := by
    intro ds d
    unfold sentinel_filter
    rw [List.mem_filter]
    simp [bne_iff_ne]
  have hfilter : sentinel_filter (env.detect image) = [] := by
    unfold sentinel_filter
    rw [List.filter_eq_nil_iff]
    intro d hd
    rw [hall d hd]
    decide
  have hlen : 0 < (env.detect image).length := List.length_pos.mpr hne
  refine ⟨hchar, ?_, ?_, ?_⟩
  · unfold detect_errors
    simp [hfn, hdec, hlen, hfilter]
  · unfold detect_errors_base64
    simp [hb64, hdec, hlen, hfilter]
  · unfold send_telegram_alert
    simp [hfilter]

/-- Claim C4: for every source image, submitting its bytes via the
multipart transport and the same bytes (base64-encoded, possibly with a
data-URI prefix) via the base64 transport yields identical
`detections_found` and identical `status` — in fact the whole responses
are equal.  The hypothesis `hb64` says precisely that the base64 string
decodes back to the multipart byte content; the detector is a function
of the decoded image in this model, hence deterministic. -/
theorem transport_independence (env : ServerEnv) (modelLoaded : Bool)
    (filename : String) (content : Bytes) (s : String)
    (hfn : filename ≠ "")
    (hb64 : env.b64decode (extract_b64_payload s) = some content) :
    detect_errors env modelLoaded (.file filename content) =
      detect_errors_base64 env modelLoaded (.withImage s) ∧
    (detect_errors env modelLoaded (.file filename content)).body.detectionsFound =
      (detect_errors_base64 env modelLoaded (.withImage s)).body.detectionsFound ∧
    (detect_errors env modelLoaded (.file filename content)).body.statusTag =
      (detect_errors_base64 env modelLoaded (.withImage s)).body.statusTag := by
  have heq : detect_errors env modelLoaded (.file filename content) =
      detect_errors_base64 env modelLoaded (.withImage s) := by
    cases modelLoaded with
    | false => rfl
    | true =>
      unfold detect_errors detect_errors_base64
      simp [hb64, hfn]
  exact ⟨heq, by rw [heq], by rw [heq]⟩

/-- The source's accumulating caption build equals the header followed
by the in-order concatenation of the per-row blocks. -/
theorem foldl_line_eq_blocks (L : List Detection) (init : String) :
    L.foldl (fun m d => m ++ detection_line d) init = init ++ caption_blocks L := by
  induction L generalizing init with
  | nil => simp [caption_blocks, String.append_empty]
  | cons d t ih => simp [caption_blocks, List.foldl, ih, String.append_assoc]

/-- Claim C8: for every detection batch with at least one non-sentinel
detection, the alert caption is the fixed header followed by exactly one
block per non-sentinel detection, in order; each block
(`detection_line`) carries the label, the confidence formatted to two
decimal places, and the four box coordinates rounded to integers.  The
filtered list contains exactly the non-sentinel detections (second
conjunct) and is non-empty (third conjunct). -/
theorem caption_exactly_non_sentinel (detections : List Detection)
    (h : ∃ d ∈ detections, str_lower d.name ≠ "imprimiendo") :
    alert_message (sentinel_filter detections) =
      alert_header ++ caption_blocks (sentinel_filter detections) ∧
    (∀ d, d ∈ sentinel_filter detections ↔
      d ∈ detections ∧ str_lower d.name ≠ "imprimiendo") ∧
    sentinel_filter detections ≠ [] := by
  obtain ⟨d, hd, hne⟩ := h
  have hm : d ∈ sentinel_filter detections :=
    List.mem_filter.mpr ⟨hd, by simpa using hne⟩
  refine ⟨?_, ?_, List.ne_nil_of_mem hm⟩
  · unfold alert_message
    exact foldl_line_eq_blocks _ _
  · intro d'
    unfold sentinel_filter
    rw [List.mem_filter]
    simp [bne_iff_ne]

/-- Claim C6: the alert dispatcher returns a boolean and, on any
provider failure — `cv2.imencode` failure, a network exception from the
POST (modelled by `telegram_post` returning `none`), or a non-200
reply — it returns `false` rather than raising (the model is a total
function into `Bool`; the source's `try/except` is the `match` on the
post outcome).  The caller's detection response is still produced: any
decodable `POST /detect` request is answered with HTTP 200 regardless
of the dispatch outcome (second conjunct). -/
theorem dispatch_failure_nonfatal (env : ServerEnv) (img : Image)
    (ds : List Detection)
    (h : env.imencode_ok img = false ∨
         env.telegram_post img (alert_message (sentinel_filter ds)) = none ∨
         ∃ c, env.telegram_post img (alert_message (sentinel_filter ds)) = some c ∧
           c ≠ 200) :
    send_telegram_alert env img ds = false ∧
    (∀ (filename : String) (content : Bytes) (im : Image), filename ≠ "" →
      env.decode content = some im →
      (detect_errors env true (.file filename content)).code = 200) := by
  constructor
  · unfold send_telegram_alert
    cases hemp : (sentinel_filter ds).isEmpty with
    | true => simp [hemp]
    | false =>
      rcases h with hh | hh | ⟨c, hc, hcne⟩
      · simp [hemp, hh]
      · by_cases he : env.imencode_ok img = false
        · simp [hemp, he]
        · simp [hemp, he, hh]
      · by_cases he : env.imencode_ok img = false
        · simp [hemp, he]
        · simp [hemp, he, hc, bne_iff_ne, hcne]
  · intro fn c im hfn hdec
    unfold detect_errors
    by_cases hl : 0 < (env.detect im).length
    · cases hemp : (sentinel_filter (env.detect im)).isEmpty with
      | true => simp [hfn, hdec, hl, hemp]
      | false => simp [hfn, hdec, hl, hemp]
    · simp [hfn, hdec, hl]

/-- Claim C5: for every byte stream that cannot be decoded into an
image, and for every request with the image missing (or with Flask's
empty-filename check tripped), both endpoints return HTTP 400, and the
detector is never invoked on that request: the response is unchanged
when the detector capability is replaced by an arbitrary function
(conjuncts three and four). -/
theorem undecodable_input_400 (env : ServerEnv)
    (req : MultipartRequest) (req2 : B64Request)
    (h1 : req = .noImageField ∨ (∃ c, req = .file "" c) ∨
          (∃ f c, req = .file f c ∧ env.decode c = none))
    (h2 : req2 = .noJson ∨
          (∃ t, req2 = .withImage t ∧ env.b64decode (extract_b64_payload t) = none) ∨
          (∃ t c, req2 = .withImage t ∧ env.b64decode (extract_b64_payload t) = some c ∧
            env.decode c = none)) :
    (detect_errors env true req).code = 400 ∧
    (detect_errors_base64 env true req2).code = 400 ∧
    (∀ dt : Image → List Detection,
      detect_errors ⟨env.decode, env.b64decode, dt, env.render, env.imencode_ok,
        env.telegram_post⟩ true req = detect_errors env true req) ∧
    (∀ dt : Image → List Detection,
      detect_errors_base64 ⟨env.decode, env.b64decode, dt, env.render, env.imencode_ok,
        env.telegram_post⟩ true req2 = detect_errors_base64 env true req2) := by
  have hmp : (detect_errors env true req).code = 400 ∧
      (∀ dt : Image → List Detection,
        detect_errors ⟨env.decode, env.b64decode, dt, env.render, env.imencode_ok,
          env.telegram_post⟩ true req = detect_errors env true req) := by
    rcases h1 with h | ⟨c, h⟩ | ⟨f, c, h, hdec⟩ <;> subst h
    · exact ⟨rfl, fun dt => rfl⟩
    · exact ⟨rfl, fun dt => rfl⟩
    · constructor
      · unfold detect_errors
        by_cases hf : f = ""
        · simp [hf]
        · simp [hf, hdec]
      · intro dt
        unfold detect_errors
        by_cases hf : f = ""
        · simp [hf]
        · simp [hf, hdec]
  have hbp : (detect_errors_base64 env true req2).code = 400 ∧
      (∀ dt : Image → List Detection,
        detect_errors_base64 ⟨env.decode, env.b64decode, dt, env.render, env.imencode_ok,
          env.telegram_post⟩ true req2 = detect_errors_base64 env true req2) := by
    rcases h2 with h | ⟨t, h, hbd⟩ | ⟨t, c, h, hbd, hdec⟩ <;> subst h
    · exact ⟨rfl, fun dt => rfl⟩
    · constructor
      · unfold detect_errors_base64
        simp [hbd]
      · intro dt
        unfold detect_errors_base64
        simp [hbd]
    · constructor
      · unfold detect_errors_base64
        simp [hbd, hdec]
      · intro dt
        unfold detect_errors_base64
        simp [hbd, hdec]
  exact ⟨hmp.1, hbp.1, hmp.2, hbp.2⟩

/-- Witness for C1: a mixed batch (sentinel + stringing) on both
transports yields `error_detected` with `alert_sent` equal to the
dispatcher's result. -/
theorem error_detected_alert_attempted_witness :
    detect_errors egEnv true (.file "capture.jpg" [7]) =
      ⟨200, .detection (egEnv.detect 1).length
        ((egEnv.detect 1).map detection_to_json)
        (send_telegram_alert egEnv (egEnv.render 1) (egEnv.detect 1))
        "error_detected"⟩ ∧
    detect_errors_base64 egEnv true (.withImage "a") =
      ⟨200, .detection (egEnv.detect 1).length
        ((egEnv.detect 1).map detection_to_json)
        (send_telegram_alert egEnv (egEnv.render 1) (egEnv.detect 1))
        "error_detected"⟩ :=
  error_detected_alert_attempted egEnv "capture.jpg" [7] "a" 1
    (by decide) (by decide) (by decide) ⟨egStringing, by decide, by decide⟩

/-- Witness for C2: a sentinel-only batch on both transports yields
`printing_normal` with no alert. -/
theorem only_sentinel_printing_normal_witness :
    detect_errors egEnv true (.file "capture.jpg" [5]) =
      ⟨200, .detection (egEnv.detect 3).length
        ((egEnv.detect 3).map detection_to_json) false "printing_normal"⟩ ∧
    detect_errors_base64 egEnv true (.withImage "c") =
      ⟨200, .detection (egEnv.detect 3).length
        ((egEnv.detect 3).map detection_to_json) false "printing_normal"⟩ ∧
    send_telegram_alert egEnv (egEnv.render 3) (egEnv.detect 3) = false :=
  only_sentinel_printing_normal egEnv "capture.jpg" [5] "c" 3
    (by decide) (by decide) (by decide) (by decide) (by decide)

/-- Witness for C4: the same byte content through both transports gets
the same response. -/
theorem transport_independence_witness :
    detect_errors egEnv true (.file "capture.jpg" [7]) =
      detect_errors_base64 egEnv true (.withImage "a") ∧
    (detect_errors egEnv true (.file "capture.jpg" [7])).body.detectionsFound =
      (detect_errors_base64 egEnv true (.withImage "a")).body.detectionsFound ∧
    (detect_errors egEnv true (.file "capture.jpg" [7])).body.statusTag =
      (detect_errors_base64 egEnv true (.withImage "a")).body.statusTag :=
  transport_independence egEnv true "capture.jpg" [7] "a" (by decide) (by decide)

/-- Witness for C5: an undecodable multipart byte stream and an invalid
base64 string both get HTTP 400. -/
theorem undecodable_input_400_witness :
    (detect_errors egEnv true (.file "x" [0])).code = 400 ∧
    (detect_errors_base64 egEnv true (.withImage "bad")).code = 400 := by
  have h := undecodable_input_400 egEnv (.file "x" [0]) (.withImage "bad")
    (Or.inr (Or.inr ⟨"x", [0], rfl, by decide⟩))
    (Or.inr (Or.inl ⟨"bad", rfl, by decide⟩))
  exact ⟨h.1, h.2.1⟩

/-- Witness for C6: with a Telegram provider that raises on every call,
the dispatcher returns `false` on a non-sentinel batch, and a decodable
detection request is still answered with HTTP 200. -/
theorem dispatch_failure_nonfatal_witness :
    send_telegram_alert egEnvFail 101 [egImprimiendo, egStringing] = false ∧
    (detect_errors egEnvFail true (.file "capture.jpg" [7])).code = 200 := by
  have h := dispatch_failure_nonfatal egEnvFail 101 [egImprimiendo, egStringing]
    (Or.inr (Or.inl rfl))
  exact ⟨h.1, h.2 "capture.jpg" [7] 1 (by decide) (by decide)⟩

/-- Witness for C7: a batch of `"Imprimiendo"` and `"IMPRIMIENDO"`
labels is treated as sentinel-only: `printing_normal`, no alert. -/
theorem sentinel_case_insensitive_witness :
    detect_errors egEnv true (.file "capture.jpg" [11]) =
      ⟨200, .detection (egEnv.detect 4).length
        ((egEnv.detect 4).map detection_to_json) false "printing_normal"⟩ ∧
    detect_errors_base64 egEnv true (.withImage "d") =
      ⟨200, .detection (egEnv.detect 4).length
        ((egEnv.detect 4).map detection_to_json) false "printing_normal"⟩ ∧
    send_telegram_alert egEnv (egEnv.render 4) (egEnv.detect 4) = false := by
  have h := sentinel_case_insensitive egEnv "capture.jpg" [11] "d" 4
    (by decide) (by decide) (by decide) (by decide) (by decide)
  exact ⟨h.2.1, h.2.2.1, h.2.2.2⟩

/-- Witness for C8: on the mixed batch, the caption is the header plus
the blocks of exactly the filtered list, `egStringing` is kept by the
filter, and the filtered list is non-empty. -/
theorem caption_exactly_non_sentinel_witness :
    alert_message (sentinel_filter [egImprimiendo, egStringing]) =
      alert_header ++ caption_blocks (sentinel_filter [egImprimiendo, egStringing]) ∧
    (egStringing ∈ sentinel_filter [egImprimiendo, egStringing] ↔
      egStringing ∈ [egImprimiendo, egStringing] ∧
        str_lower egStringing.name ≠ "imprimiendo") ∧
    sentinel_filter [egImprimiendo, egStringing] ≠ [] := by
  have h := caption_exactly_non_sentinel [egImprimiendo, egStringing]
    ⟨egStringing, by decide, by decide⟩
  exact ⟨h.1, h.2.1 egStringing, h.2.2⟩

/-- Witness for C10: a decodable image with an empty batch yields the
empty `normal` summary on both transports. -/
theorem empty_batch_normal_witness :
    detect_errors egEnv true (.file "capture.jpg" [9]) =
      ⟨200, .detection 0 [] false "normal"⟩ ∧
    detect_errors_base64 egEnv true (.withImage "b") =
      ⟨200, .detection 0 [] false "normal"⟩ :=
  empty_batch_normal egEnv "capture.jpg" [9] "b" 2
    (by decide) (by decide) (by decide) (by decide)
